import Mathlib

/-!
Verification of the sensitive-data processor
(src/sensitive_data_processor/function_app.py) against its specification.

The Python module is sequential glue code: a blob-triggered handler
(`analyze_sensitive_data`) decodes the blob as UTF-8, calls
`analyze_pii_phi`, and writes the returned value to the output blob.
`analyze_pii_phi` submits the documents to the external text-analytics
service, then walks the per-action result groups, dispatching each result
item by kind: PII results update `document_redacted_text` and emit a "PII"
structured log, healthcare results emit a "PHI" structured log, error items
produce an error log line, and everything else is skipped.  A single
catch-all converts any exception inside `analyze_pii_phi` into the failure
payload dict.

The embedding below is a direct translation.  External collaborators are
oracles: `svc` stands for `begin_analyze_actions` + `poller.result()`
(returning the list of per-action result groups, or a transport error) and
`emit` stands for `json.dumps` + `logging.info` inside
`log_structured_data` (which may fail, e.g. on non-serializable content).
Python values stored in dicts are modelled by `PyVal`; dicts keep insertion
order, so key-presence (e.g. the conditionally added "assertion" key) is
modelled faithfully.  Python exception flow is modelled by an `exc` field
threaded through the loop: once an exception is pending, the remaining
iterations do nothing, and `classifyResults` turns a pending exception into
the failure payload, mirroring the catch-all.
-/

/-- A warning object attached to a service result (TextAnalyticsWarning).
Stored raw (not projected) in the log dicts, as in the source. -/
structure Warning where
  code : String
  message : String
  deriving DecidableEq

/-- The error object carried by an error document (`result.error`). -/
structure ErrorInfo where
  code : String
  message : String
  deriving DecidableEq

/-- A PII entity as returned by the service.  The source projection reads
category, subcategory, offset, length and confidence_score; the service
object also carries the matched text, which the projection drops. -/
structure PiiEntity where
  text : String
  category : String
  subcategory : Option String
  offset : Nat
  length : Nat
  confidence_score : Rat
  deriving DecidableEq

/-- A data-source reference of a healthcare entity. -/
structure HealthcareDataSource where
  entity_id : String
  name : String
  deriving DecidableEq

/-- The assertion object of a healthcare entity. -/
structure HealthcareAssertion where
  conditionality : Option String
  certainty : Option String
  association : Option String
  deriving DecidableEq

/-- A healthcare entity as returned by the service.  `data_sources` may be
absent (`none`) and `assertion` may be absent; the service object also
carries the matched text, which the projection drops. -/
structure HealthcareEntity where
  text : String
  category : String
  subcategory : Option String
  assertion : Option HealthcareAssertion
  data_sources : Option (List HealthcareDataSource)
  offset : Nat
  length : Nat
  confidence_score : Rat
  deriving DecidableEq

/-- A role inside an entity relation.  The service provides both the role
name and a reference to the participating entity; the source projection
keeps only the name. -/
structure HealthcareRelationRole where
  name : String
  entity : HealthcareEntity
  deriving DecidableEq

/-- An entity relation of a healthcare result. -/
structure HealthcareRelation where
  relation_type : String
  roles : List HealthcareRelationRole
  confidence_score : Rat
  deriving DecidableEq

/-- A `RecognizePiiEntitiesResult`: the fields the source reads. -/
structure PiiResult where
  redacted_text : String
  entities : List PiiEntity
  warnings : List Warning
  is_error : Bool
  deriving DecidableEq

/-- An `AnalyzeHealthcareEntitiesResult`: the fields the source reads. -/
structure HealthcareResult where
  entities : List HealthcareEntity
  entity_relations : List HealthcareRelation
  warnings : List Warning
  is_error : Bool
  deriving DecidableEq

/-- One result item of an action group: the tagged union the loop
dispatches on via `result.kind` / `result.is_error`. -/
inductive ResultItem where
  | pii (r : PiiResult)
  | healthcare (r : HealthcareResult)
  | errorDoc (e : ErrorInfo)
  | other (kind : String)
  deriving DecidableEq

/-- The `kind` attribute the source's if/elif chain compares against. -/
def ResultItem.kind : ResultItem → String
  | .pii _ => "PiiEntityRecognition"
  | .healthcare _ => "Healthcare"
  | .errorDoc _ => "DocumentError"
  | .other k => k

/-- The `is_error` attribute of a result item. -/
def ResultItem.is_error : ResultItem → Bool
  | .pii r => r.is_error
  | .healthcare r => r.is_error
  | .errorDoc _ => true
  | .other _ => false

/-- A Python value as stored in the dicts the source builds.  Dicts are
ordered key/value lists (insertion order), warnings are stored as raw
objects, exactly as the source stores `result.warnings`. -/
inductive PyVal where
  | none_
  | bool (b : Bool)
  | int (n : Int)
  | float (q : Rat)
  | str (s : String)
  | list (xs : List PyVal)
  | dict (kvs : List (String × PyVal))
  | warning (w : Warning)

/-- An optional string field as stored in a dict (`None` when absent). -/
def pyOfOptStr : Option String → PyVal
  | some s => .str s
  | none => .none_

/-- Dict lookup on an ordered key/value list. -/
def lookupPairs : List (String × PyVal) → String → Option PyVal
  | [], _ => none
  | (k, v) :: rest, key => if k = key then some v else lookupPairs rest key

/-- Lookup of a key in a `PyVal` dict (none on non-dicts). -/
def jLookup : PyVal → String → Option PyVal
  | .dict kvs, key => lookupPairs kvs key
  | _, _ => none

/-- The keys of a `PyVal` dict, in insertion order. -/
def dictKeys : PyVal → List String
  | .dict kvs => kvs.map Prod.fst
  | _ => []

/-- Lines 77-83: the dict built for one PII entity. -/
def projectPiiEntity (e : PiiEntity) : PyVal :=
  .dict [("category", .str e.category),
         ("subcategory", pyOfOptStr e.subcategory),
         ("offset", .int e.offset),
         ("length", .int e.length),
         ("confidence_score", .float e.confidence_score)]

/-- Lines 112-115: the dict appended for one data source. -/
def projectDataSource (s : HealthcareDataSource) : PyVal :=
  .dict [("entity_id", .str s.entity_id), ("name", .str s.name)]

/-- Lines 119-123: the assertion dict. -/
def projectAssertion (a : HealthcareAssertion) : PyVal :=
  .dict [("conditionality", pyOfOptStr a.conditionality),
         ("certainty", pyOfOptStr a.certainty),
         ("association", pyOfOptStr a.association)]

/-- Lines 109-115: the final value of the "data_sources" list.  The guard
`if entity.data_sources:` is Python truthiness: `None` and the empty list
both skip the append loop. -/
def dataSourcesValue (ds : Option (List HealthcareDataSource)) : List PyVal :=
  match ds with
  | some l => if l.isEmpty then [] else l.map projectDataSource
  | none => []

/-- Lines 98-125: the dict built for one healthcare entity.  The
"assertion" key is appended only when `entity.assertion` is present
(an object is always truthy), so it is absent -- not `None` -- otherwise. -/
def projectHealthcareEntity (e : HealthcareEntity) : PyVal :=
  let base := [("category", .str e.category),
               ("subcategory", pyOfOptStr e.subcategory),
               ("confidence_score", .float e.confidence_score),
               ("data_sources", .list (dataSourcesValue e.data_sources)),
               ("offset", .int e.offset),
               ("length", .int e.length)]
  match e.assertion with
  | some a => .dict (base ++ [("assertion", projectAssertion a)])
  | none => .dict base

/-- Lines 131-136: one `{role: name}` record per role of a relation; the
role's entity reference is discarded. -/
def projectRole (role : HealthcareRelationRole) : PyVal :=
  .dict [("role", .str role.name)]

/-- Lines 138-142: the dict built for one entity relation. -/
def projectRelation (rel : HealthcareRelation) : PyVal :=
  .dict [("confidenceScore", .float rel.confidence_score),
         ("relationType", .str rel.relation_type),
         ("entities", .list (rel.roles.map projectRole))]

/-- Lines 46-51: the log_entry dict built by `log_structured_data`. -/
def mkLogEntry (message : String) (custom_dimensions : PyVal) (errors : Bool) : PyVal :=
  .dict [("analysis_type", .str message),
         ("documents", custom_dimensions),
         ("errors", .bool errors),
         ("modelVersion", .str "2023-09-01")]

/-- Lines 44-52: `log_structured_data` builds the log_entry dict and hands
it to `json.dumps` + `logging.info`, modelled by the `emit` oracle; it has
no exception handling of its own, so a serialization/sink failure is the
oracle's error. -/
def log_structured_data (emit : PyVal → Except String Unit)
    (message : String) (custom_dimensions : PyVal) (errors : Bool) :
    Except String Unit :=
  emit (mkLogEntry message custom_dimensions errors)

/-- Lines 88-92: the custom dimensions of the "PII" log call. -/
def piiDimensions (docId : String) (r : PiiResult) : PyVal :=
  .dict [("id", .str docId),
         ("entities", .list (r.entities.map projectPiiEntity)),
         ("warnings", .list (r.warnings.map PyVal.warning))]

/-- Lines 148-153: the custom dimensions of the "PHI" log call. -/
def phiDimensions (docId : String) (r : HealthcareResult) : PyVal :=
  .dict [("id", .str docId),
         ("entities", .list (r.entities.map projectHealthcareEntity)),
         ("relations", .list (r.entity_relations.map projectRelation)),
         ("warnings", .list (r.warnings.map PyVal.warning))]

/-- Lines 158-160: the error line logged for an error document. -/
def errorLine (code message : String) : String :=
  "...Is an error with code \x27" ++ code ++ "\x27 and message \x27" ++ message ++ "\x27"

/-- The state threaded through the result loop (lines 72-160):
`redacted` is the `document_redacted_text` local (`none` = never
assigned), `logs` the structured records sunk so far, `errLines` the
error log lines so far, `exc` a pending exception message. -/
structure RunSt where
  redacted : Option String
  logs : List PyVal
  errLines : List String
  exc : Option String

/-- The loop state on entry: no local assigned, nothing logged. -/
def initSt : RunSt := ⟨none, [], [], none⟩

/-- Lines 73-160: the body of the inner result loop for one item.  A
pending exception skips the body (the loop has already aborted).  The PII
branch assigns `document_redacted_text` before logging, so the assignment
survives even when the log call raises. -/
def stepItem (emit : PyVal → Except String Unit) (docId : String)
    (st : RunSt) (r : ResultItem) : RunSt :=
  match st.exc with
  | some _ => st
  | none =>
    match r with
    | .pii p =>
      let st1 := { st with redacted := some p.redacted_text }
      match log_structured_data emit "PII" (piiDimensions docId p) p.is_error with
      | .ok _ => { st1 with logs := st1.logs ++ [mkLogEntry "PII" (piiDimensions docId p) p.is_error] }
      | .error e => { st1 with exc := some e }
    | .healthcare h =>
      match log_structured_data emit "PHI" (phiDimensions docId h) h.is_error with
      | .ok _ => { st with logs := st.logs ++ [mkLogEntry "PHI" (phiDimensions docId h) h.is_error] }
      | .error e => { st with exc := some e }
    | .errorDoc e => { st with errLines := st.errLines ++ [errorLine e.code e.message] }
    | .other _ => st

/-- Lines 72-160: the nested loop over action groups and result items. -/
def runGroups (emit : PyVal → Except String Unit) (docId : String)
    (groups : List (List ResultItem)) : RunSt :=
  groups.foldl (fun st grp => grp.foldl (stepItem emit docId) st) initSt

/-- Lines 166-169: the failure payload returned by the catch-all. -/
def failurePayload (msg : String) : PyVal :=
  .dict [("error", .str msg), ("status", .str "failed")]

/-- The message of the UnboundLocalError raised by `return
document_redacted_text` when no PII result assigned the local. -/
def unboundLocalMsg : String :=
  "cannot access local variable \x27document_redacted_text\x27 where it is not associated with a value"

/-- Line 165: the error line logged by the catch-all. -/
def catchLine (msg : String) : String := "Error analyzing document: " ++ msg

/-- Lines 162-169: `return document_redacted_text` and the catch-all.  A
pending exception -- or the UnboundLocalError raised by the return itself
when no PII result ever assigned the local -- reaches the catch-all, which
logs a line and returns the failure payload. -/
def finishRun (st : RunSt) : PyVal × List PyVal × List String :=
  match st.exc with
  | some e => (failurePayload e, st.logs, st.errLines ++ [catchLine e])
  | none =>
    match st.redacted with
    | some t => (PyVal.str t, st.logs, st.errLines)
    | none => (failurePayload unboundLocalMsg, st.logs, st.errLines ++ [catchLine unboundLocalMsg])

/-- Lines 72-169 after the service responded: run the classification loop,
then return.  Returns (returned value, structured logs sunk, error lines
logged). -/
def classifyResults (emit : PyVal → Except String Unit) (docId : String)
    (groups : List (List ResultItem)) : PyVal × List PyVal × List String :=
  finishRun (runGroups emit docId groups)

/-- Lines 54-169: `analyze_pii_phi`.  The service call (`svc`) happens
inside the try, so a transport error also becomes the failure payload. -/
def analyze_pii_phi (svc : List String → Except String (List (List ResultItem)))
    (emit : PyVal → Except String Unit)
    (documents : List String) (docId : String) :
    PyVal × List PyVal × List String :=
  match svc documents with
  | .error e => (failurePayload e, [], [catchLine e])
  | .ok groups => classifyResults emit docId groups

/-- Is `b` a UTF-8 continuation byte? -/
def isContByte (b : Nat) : Bool := decide (0x80 ≤ b ∧ b < 0xC0)

/-- Strict UTF-8 decoding of a byte list to scalar values, as Python's
`bytes.decode` with the utf-8 codec: rejects stray continuation bytes,
overlong encodings, surrogates, values above 0x10FFFF and truncated
sequences. -/
def utf8Decode : List Nat → Option (List Nat)
  | [] => some []
  | b :: rest =>
    if b < 0x80 then
      (utf8Decode rest).map (fun cs => b :: cs)
    else if b < 0xC2 then none
    else if b < 0xE0 then
      match rest with
      | b1 :: rest1 =>
        if isContByte b1 then
          (utf8Decode rest1).map (fun cs => ((b - 0xC0) * 0x40 + (b1 - 0x80)) :: cs)
        else none
      | [] => none
    else if b < 0xF0 then
      match rest with
      | b1 :: b2 :: rest2 =>
        if isContByte b1 ∧ isContByte b2 then
          let cp := (b - 0xE0) * 0x1000 + (b1 - 0x80) * 0x40 + (b2 - 0x80)
          if cp < 0x800 ∨ (0xD800 ≤ cp ∧ cp ≤ 0xDFFF) then none
          else (utf8Decode rest2).map (fun cs => cp :: cs)
        else none
      | _ => none
    else if b < 0xF5 then
      match rest with
      | b1 :: b2 :: b3 :: rest3 =>
        if isContByte b1 ∧ isContByte b2 ∧ isContByte b3 then
          let cp := (b - 0xF0) * 0x40000 + (b1 - 0x80) * 0x1000 + (b2 - 0x80) * 0x40 + (b3 - 0x80)
          if cp < 0x10000 ∨ 0x10FFFF < cp then none
          else (utf8Decode rest3).map (fun cs => cp :: cs)
        else none
      | _ => none
    else none

/-- Decoded scalar values as a string. -/
def stringOfScalars (cps : List Nat) : String :=
  String.mk (cps.map Char.ofNat)

/-- The message of the UnicodeDecodeError Python raises on invalid UTF-8. -/
def unicodeDecodeErrorMsg : String := "\x27utf-8\x27 codec can\x27t decode byte"

/-- The observable outcome of one blob-triggered invocation: either the
handler completed (output blob written, logs emitted) or an uncaught
exception escaped the handler (nothing written). -/
inductive InvocationOutcome where
  | completed (outputBlob : PyVal) (logs : List PyVal) (errLines : List String)
  | raised (exc : String)

/-- Lines 29-42: `analyze_sensitive_data`.  The blob bytes are decoded
with `.decode` at line 34, OUTSIDE any try/except: a decode failure
escapes the handler and nothing is written to the output blob.  On
success, the value returned by `analyze_pii_phi` is written via
`outputblob.set`. -/
def analyze_sensitive_data (svc : List String → Except String (List (List ResultItem)))
    (emit : PyVal → Except String Unit)
    (docId : String) (blobBytes : List Nat) : InvocationOutcome :=
  match utf8Decode blobBytes with
  | none => .raised unicodeDecodeErrorMsg
  | some cps =>
    match analyze_pii_phi svc emit [stringOfScalars cps] docId with
    | (out, logs, errs) => .completed out logs errs

/-- The output artifact written by an invocation (`none` when the handler
raised before `outputblob.set`). -/
def outputArtifact : InvocationOutcome → Option PyVal
  | .completed b _ _ => some b
  | .raised _ => none

/-- The structured log records emitted by an invocation. -/
def emittedLogs : InvocationOutcome → List PyVal
  | .completed _ logs _ => logs
  | .raised _ => []

/-- The effect of one result item on the `document_redacted_text` local. -/
def redactedStep (a : Option String) (r : ResultItem) : Option String :=
  match r with
  | .pii p => some p.redacted_text
  | _ => a

/-- The value of `document_redacted_text` after the whole loop: the
redacted text of the last-seen PII result, if any. -/
def lastPiiRedacted (items : List ResultItem) : Option String :=
  items.foldl redactedStep none

/-- All result items of a submission in iteration order. -/
def flattenGroups (groups : List (List ResultItem)) : List ResultItem :=
  groups.flatten

/-- The structured log records one item contributes (when emission
succeeds). -/
def itemLogs (docId : String) : ResultItem → List PyVal
  | .pii p => [mkLogEntry "PII" (piiDimensions docId p) p.is_error]
  | .healthcare h => [mkLogEntry "PHI" (phiDimensions docId h) h.is_error]
  | _ => []

/-- The error log lines one item contributes. -/
def itemErrLines : ResultItem → List String
  | .errorDoc e => [errorLine e.code e.message]
  | _ => []

/-- An emission oracle that never fails. -/
def emitOk : PyVal → Except String Unit := fun _ => .ok ()

/-- An emission oracle whose serialization/sink always fails. -/
def emitBoom : PyVal → Except String Unit := fun _ => Except.error "boom"

/-- What every structured log record of one invocation must satisfy: the
constant schema version and the correlation id of the invocation. -/
def logRecordOk (docId : String) (entry : PyVal) : Prop :=
  jLookup entry "modelVersion" = some (PyVal.str "2023-09-01") ∧
  (jLookup entry "documents").bind (fun d => jLookup d "id") = some (PyVal.str docId)

/-- Fixture: a healthcare result with no entities and no relations. -/
def hcEmpty : HealthcareResult := ⟨[], [], [], false⟩

/-- Fixture: a PII result with redacted text "redacted-A". -/
def piiA : PiiResult := ⟨"redacted-A", [], [], false⟩

/-- Fixture: a PII result with redacted text "redacted-B". -/
def piiB : PiiResult := ⟨"redacted-B", [], [], false⟩

/-- Fixture: the fabricated service response of the round-trip example --
two PII entities (Name at 0 length 4 confidence 0.9, Phone at 10 length 8
confidence 0.95) and redacted text "**** is at **** now". -/
def fabricatedPii : PiiResult :=
  ⟨"**** is at **** now",
   [⟨"John", "Name", none, 0, 4, 9/10⟩,
    ⟨"555-0192", "Phone", none, 10, 8, 19/20⟩],
   [], false⟩

/-- Fixture: a healthcare entity for relation roles. -/
def hcEntityA : HealthcareEntity :=
  ⟨"ibuprofen", "MedicationName", none, none, none, 0, 9, 4/5⟩

/-- Fixture: a relation with one Dosage role referencing `hcEntityA`. -/
def relA : HealthcareRelation :=
  ⟨"DosageOfMedication", [⟨"Dosage", hcEntityA⟩], 7/10⟩

/-- Fixture: a healthcare result carrying `hcEntityA` and `relA`. -/
def hcA : HealthcareResult := ⟨[hcEntityA], [relA], [], false⟩

/-! ## Helper lemmas about the classification loop -/

theorem stepItem_exc_some (emit : PyVal → Except String Unit) (docId : String)
    (st : RunSt) (r : ResultItem) (e : String) (h : st.exc = some e) :
    stepItem emit docId st r = st := by
  obtain ⟨red, logs, errs, exc⟩ := st
  cases exc with
  | none => simp at h
  | some e0 => rfl

theorem foldl_stepItem_exc_some (emit : PyVal → Except String Unit) (docId : String)
    (items : List ResultItem) (st : RunSt) (e : String) (h : st.exc = some e) :
    items.foldl (stepItem emit docId) st = st := by
  induction items with
  | nil => rfl
  | cons r rs ih => rw [List.foldl_cons, stepItem_exc_some emit docId st r e h]; exact ih

theorem stepItem_none_pii_ok (emit : PyVal → Except String Unit) (docId : String)
    (red : Option String) (logs : List PyVal) (errs : List String)
    (p : PiiResult) (u : Unit)
    (hm : emit (mkLogEntry "PII" (piiDimensions docId p) p.is_error) = Except.ok u) :
    stepItem emit docId ⟨red, logs, errs, none⟩ (ResultItem.pii p) =
      ⟨some p.redacted_text,
       logs ++ [mkLogEntry "PII" (piiDimensions docId p) p.is_error], errs, none⟩ := by
  simp [stepItem, log_structured_data, hm]

theorem stepItem_none_pii_err (emit : PyVal → Except String Unit) (docId : String)
    (red : Option String) (logs : List PyVal) (errs : List String)
    (p : PiiResult) (e : String)
    (hm : emit (mkLogEntry "PII" (piiDimensions docId p) p.is_error) = Except.error e) :
    stepItem emit docId ⟨red, logs, errs, none⟩ (ResultItem.pii p) =
      ⟨some p.redacted_text, logs, errs, some e⟩ := by
  simp [stepItem, log_structured_data, hm]

theorem stepItem_none_healthcare_ok (emit : PyVal → Except String Unit) (docId : String)
    (red : Option String) (logs : List PyVal) (errs : List String)
    (hc : HealthcareResult) (u : Unit)
    (hm : emit (mkLogEntry "PHI" (phiDimensions docId hc) hc.is_error) = Except.ok u) :
    stepItem emit docId ⟨red, logs, errs, none⟩ (ResultItem.healthcare hc) =
      ⟨red, logs ++ [mkLogEntry "PHI" (phiDimensions docId hc) hc.is_error], errs, none⟩ := by
  simp [stepItem, log_structured_data, hm]

theorem stepItem_none_healthcare_err (emit : PyVal → Except String Unit) (docId : String)
    (red : Option String) (logs : List PyVal) (errs : List String)
    (hc : HealthcareResult) (e : String)
    (hm : emit (mkLogEntry "PHI" (phiDimensions docId hc) hc.is_error) = Except.error e) :
    stepItem emit docId ⟨red, logs, errs, none⟩ (ResultItem.healthcare hc) =
      ⟨red, logs, errs, some e⟩ := by
  simp [stepItem, log_structured_data, hm]

theorem stepItem_none_errorDoc (emit : PyVal → Except String Unit) (docId : String)
    (red : Option String) (logs : List PyVal) (errs : List String) (err : ErrorInfo) :
    stepItem emit docId ⟨red, logs, errs, none⟩ (ResultItem.errorDoc err) =
      ⟨red, logs, errs ++ [errorLine err.code err.message], none⟩ := rfl

theorem stepItem_none_other (emit : PyVal → Except String Unit) (docId : String)
    (red : Option String) (logs : List PyVal) (errs : List String) (k : String) :
    stepItem emit docId ⟨red, logs, errs, none⟩ (ResultItem.other k) =
      ⟨red, logs, errs, none⟩ := rfl

theorem foldl_foldl_flatten (f : RunSt → ResultItem → RunSt)
    (groups : List (List ResultItem)) (st : RunSt) :
    groups.foldl (fun s grp => grp.foldl f s) st = groups.flatten.foldl f st := by
  induction groups generalizing st with
  | nil => rfl
  | cons g gs ih => rw [List.foldl_cons, List.flatten_cons, List.foldl_append, ih]

theorem runGroups_flatten (emit : PyVal → Except String Unit) (docId : String)
    (groups : List (List ResultItem)) :
    runGroups emit docId groups = (flattenGroups groups).foldl (stepItem emit docId) initSt :=
  foldl_foldl_flatten _ groups initSt

theorem foldl_stepItem_emitOk (docId : String) (items : List ResultItem) (st : RunSt)
    (h : st.exc = none) :
    items.foldl (stepItem emitOk docId) st =
      ⟨items.foldl redactedStep st.redacted,
       st.logs ++ (items.map (itemLogs docId)).flatten,
       st.errLines ++ (items.map itemErrLines).flatten, none⟩ := by
  induction items generalizing st with
  | nil =>
    obtain ⟨red, logs, errs, exc⟩ := st
    simp at h
    subst h
    simp
  | cons r rs ih =>
    obtain ⟨red, logs, errs, exc⟩ := st
    simp at h
    subst h
    cases r with
    | pii p =>
      rw [List.foldl_cons, stepItem_none_pii_ok emitOk docId red logs errs p () rfl, ih _ rfl]
      simp [redactedStep, itemLogs, itemErrLines]
    | healthcare hc =>
      rw [List.foldl_cons, stepItem_none_healthcare_ok emitOk docId red logs errs hc () rfl,
        ih _ rfl]
      simp [redactedStep, itemLogs, itemErrLines]
    | errorDoc err =>
      rw [List.foldl_cons, stepItem_none_errorDoc emitOk docId red logs errs err, ih _ rfl]
      simp [redactedStep, itemLogs, itemErrLines]
    | other k =>
      rw [List.foldl_cons, stepItem_none_other emitOk docId red logs errs k, ih _ rfl]
      simp [redactedStep, itemLogs, itemErrLines]

theorem runGroups_emitOk (docId : String) (groups : List (List ResultItem)) :
    runGroups emitOk docId groups =
      ⟨lastPiiRedacted (flattenGroups groups),
       ((flattenGroups groups).map (itemLogs docId)).flatten,
       ((flattenGroups groups).map itemErrLines).flatten, none⟩ := by
  rw [runGroups_flatten, foldl_stepItem_emitOk docId _ initSt rfl]
  rfl

theorem stepItem_redacted_none (emit : PyVal → Except String Unit) (docId : String)
    (st : RunSt) (r : ResultItem) (h : st.exc = none) :
    (stepItem emit docId st r).redacted = redactedStep st.redacted r := by
  obtain ⟨red, logs, errs, exc⟩ := st
  simp at h
  subst h
  cases r with
  | pii p =>
    cases hm : emit (mkLogEntry "PII" (piiDimensions docId p) p.is_error) with
    | ok u =>
      rw [stepItem_none_pii_ok emit docId red logs errs p u hm]
      rfl
    | error e =>
      rw [stepItem_none_pii_err emit docId red logs errs p e hm]
      rfl
  | healthcare hc =>
    cases hm : emit (mkLogEntry "PHI" (phiDimensions docId hc) hc.is_error) with
    | ok u =>
      rw [stepItem_none_healthcare_ok emit docId red logs errs hc u hm]
      rfl
    | error e =>
      rw [stepItem_none_healthcare_err emit docId red logs errs hc e hm]
      rfl
  | errorDoc err => rfl
  | other k => rfl

theorem foldl_redacted_of_exc_none (emit : PyVal → Except String Unit) (docId : String)
    (items : List ResultItem) (st : RunSt)
    (h : (items.foldl (stepItem emit docId) st).exc = none) :
    st.exc = none ∧
    (items.foldl (stepItem emit docId) st).redacted = items.foldl redactedStep st.redacted := by
  induction items generalizing st with
  | nil => exact ⟨h, rfl⟩
  | cons r rs ih =>
    rw [List.foldl_cons] at h
    obtain ⟨h1, h2⟩ := ih (stepItem emit docId st r) h
    have hst : st.exc = none := by
      cases hx : st.exc with
      | none => rfl
      | some e =>
        rw [stepItem_exc_some emit docId st r e hx, hx] at h1
        exact Option.noConfusion h1
    refine ⟨hst, ?_⟩
    simp only [List.foldl_cons]
    rw [h2, stepItem_redacted_none emit docId st r hst]

theorem logRecordOk_pii (docId : String) (p : PiiResult) (b : Bool) :
    logRecordOk docId (mkLogEntry "PII" (piiDimensions docId p) b) := ⟨rfl, rfl⟩

theorem logRecordOk_phi (docId : String) (hc : HealthcareResult) (b : Bool) :
    logRecordOk docId (mkLogEntry "PHI" (phiDimensions docId hc) b) := ⟨rfl, rfl⟩

theorem stepItem_logs_ok (emit : PyVal → Except String Unit) (docId : String)
    (st : RunSt) (r : ResultItem) (h : ∀ x ∈ st.logs, logRecordOk docId x) :
    ∀ x ∈ (stepItem emit docId st r).logs, logRecordOk docId x := by
  obtain ⟨red, logs, errs, exc⟩ := st
  cases exc with
  | some e => exact h
  | none =>
    cases r with
    | pii p =>
      cases hm : emit (mkLogEntry "PII" (piiDimensions docId p) p.is_error) with
      | ok u =>
        rw [stepItem_none_pii_ok emit docId red logs errs p u hm]
        intro x hx
        rcases List.mem_append.mp hx with hx | hx
        · exact h x hx
        · rw [List.mem_singleton.mp hx]
          exact logRecordOk_pii docId p p.is_error
      | error e =>
        rw [stepItem_none_pii_err emit docId red logs errs p e hm]
        exact h
    | healthcare hc =>
      cases hm : emit (mkLogEntry "PHI" (phiDimensions docId hc) hc.is_error) with
      | ok u =>
        rw [stepItem_none_healthcare_ok emit docId red logs errs hc u hm]
        intro x hx
        rcases List.mem_append.mp hx with hx | hx
        · exact h x hx
        · rw [List.mem_singleton.mp hx]
          exact logRecordOk_phi docId hc hc.is_error
      | error e =>
        rw [stepItem_none_healthcare_err emit docId red logs errs hc e hm]
        exact h
    | errorDoc err => exact h
    | other k => exact h

theorem foldl_logs_ok (emit : PyVal → Except String Unit) (docId : String)
    (items : List ResultItem) (st : RunSt) (h : ∀ x ∈ st.logs, logRecordOk docId x) :
    ∀ x ∈ (items.foldl (stepItem emit docId) st).logs, logRecordOk docId x := by
  induction items generalizing st with
  | nil => exact h
  | cons r rs ih =>
    rw [List.foldl_cons]
    exact ih _ (stepItem_logs_ok emit docId st r h)

theorem finishRun_fst_of (st : RunSt) (t : String)
    (h1 : st.exc = none) (h2 : st.redacted = some t) :
    (finishRun st).1 = PyVal.str t := by
  obtain ⟨red, logs, errs, exc⟩ := st
  simp at h1 h2
  subst h1
  subst h2
  rfl

theorem finishRun_logs (st : RunSt) : (finishRun st).2.1 = st.logs := by
  obtain ⟨red, logs, errs, exc⟩ := st
  cases exc with
  | some e => rfl
  | none => cases red <;> rfl

/-! ## Claims -/

/-- C1: for every submission whose result sequence contains at least one
PII result and in which no exception is raised, the value returned by the
analysis function (and written as the output artifact by the handler)
equals the redacted text of the last PII result in iteration order over
all action groups and documents; any earlier redacted text is
overwritten. -/
theorem c1_last_pii_redacted_text_returned
    (emit : PyVal → Except String Unit) (docId t : String)
    (groups : List (List ResultItem))
    (hexc : (runGroups emit docId groups).exc = none)
    (hlast : lastPiiRedacted (flattenGroups groups) = some t) :
    (classifyResults emit docId groups).1 = PyVal.str t ∧
    ∀ bytes : List Nat, utf8Decode bytes ≠ none →
      outputArtifact (analyze_sensitive_data (fun _ => Except.ok groups) emit docId bytes) =
        some (PyVal.str t) := by
  have hred : (runGroups emit docId groups).redacted = some t := by
    rw [runGroups_flatten] at hexc ⊢
    obtain ⟨-, h2⟩ := foldl_redacted_of_exc_none emit docId (flattenGroups groups) initSt hexc
    rw [h2]
    exact hlast
  have hexc2 : (runGroups emit docId groups).exc = none := hexc
  have h1 : (classifyResults emit docId groups).1 = PyVal.str t :=
    finishRun_fst_of _ t hexc2 hred
  refine ⟨h1, ?_⟩
  intro bytes hb
  cases hd : utf8Decode bytes with
  | none => exact absurd hd hb
  | some cps =>
    have ha : analyze_sensitive_data (fun _ => Except.ok groups) emit docId bytes =
        InvocationOutcome.completed (classifyResults emit docId groups).1
          (classifyResults emit docId groups).2.1 (classifyResults emit docId groups).2.2 := by
      unfold analyze_sensitive_data
      rw [hd]
      rfl
    rw [ha]
    show some (classifyResults emit docId groups).1 = some (PyVal.str t)
    rw [h1]

/-- Witness for C1 at a concrete two-PII submission spread over two action
groups: the second redacted text wins and is written as the artifact. -/
theorem c1_witness :
    (classifyResults emitOk "doc-9"
      [[ResultItem.pii piiA], [ResultItem.pii piiB, ResultItem.other "x"]]).1 =
      PyVal.str "redacted-B" ∧
    outputArtifact (analyze_sensitive_data
      (fun _ => Except.ok [[ResultItem.pii piiA], [ResultItem.pii piiB, ResultItem.other "x"]])
      emitOk "doc-9" [104]) = some (PyVal.str "redacted-B") := by
  have h := c1_last_pii_redacted_text_returned emitOk "doc-9" "redacted-B"
    [[ResultItem.pii piiA], [ResultItem.pii piiB, ResultItem.other "x"]] rfl rfl
  exact ⟨h.1, h.2 [104] (by decide)⟩

/-- C2 counterexample: on the non-UTF-8 input [255] the handler raises the
decode error past its boundary; no output artifact (in particular not the
failure payload) is written and no structured log record is emitted --
contradicting the claim that the failure payload is written and nothing
escapes. -/
theorem c2_counterexample :
    analyze_sensitive_data (fun _ => Except.ok []) emitOk "doc-1" [255] =
      InvocationOutcome.raised unicodeDecodeErrorMsg ∧
    outputArtifact (analyze_sensitive_data (fun _ => Except.ok []) emitOk "doc-1" [255]) =
      none ∧
    emittedLogs (analyze_sensitive_data (fun _ => Except.ok []) emitOk "doc-1" [255]) = [] :=
  ⟨rfl, rfl, rfl⟩

/-- C2 (amended): for every input blob whose bytes are not valid UTF-8,
the decode error escapes the handler uncaught: the invocation raises past
the orchestrator boundary, writes no output artifact at all (neither
redacted text nor the failure payload) and emits no structured log
entry. -/
theorem c2_decode_error_escapes
    (svc : List String → Except String (List (List ResultItem)))
    (emit : PyVal → Except String Unit) (docId : String) (bytes : List Nat)
    (h : utf8Decode bytes = none) :
    analyze_sensitive_data svc emit docId bytes =
      InvocationOutcome.raised unicodeDecodeErrorMsg ∧
    outputArtifact (analyze_sensitive_data svc emit docId bytes) = none ∧
    emittedLogs (analyze_sensitive_data svc emit docId bytes) = [] := by
  have h1 : analyze_sensitive_data svc emit docId bytes =
      InvocationOutcome.raised unicodeDecodeErrorMsg := by
    unfold analyze_sensitive_data
    rw [h]
  refine ⟨h1, ?_, ?_⟩
  · rw [h1]
    rfl
  · rw [h1]
    rfl

/-- Witness for the amended C2 at the overlong lead byte 0xC0. -/
theorem c2_witness :
    analyze_sensitive_data (fun _ => Except.ok []) emitOk "doc-2" [192] =
      InvocationOutcome.raised unicodeDecodeErrorMsg ∧
    outputArtifact (analyze_sensitive_data (fun _ => Except.ok []) emitOk "doc-2" [192]) =
      none ∧
    emittedLogs (analyze_sensitive_data (fun _ => Except.ok []) emitOk "doc-2" [192]) = [] :=
  c2_decode_error_escapes (fun _ => Except.ok []) emitOk "doc-2" [192] (by decide)

/-- C3: a result set holding one error item (kind neither PII nor
healthcare, is_error true) followed by one valid PII result still yields
the PII structured log record, a separate error line carrying the item's
code and message, continues past the error item and returns the redacted
text without raising. -/
theorem c3_error_isolation
    (emit : PyVal → Except String Unit) (docId c m : String)
    (p : PiiResult) (groups : List (List ResultItem))
    (hemit : ∀ v, emit v = Except.ok ())
    (hitems : flattenGroups groups = [ResultItem.errorDoc ⟨c, m⟩, ResultItem.pii p]) :
    classifyResults emit docId groups =
      (PyVal.str p.redacted_text,
       [mkLogEntry "PII" (piiDimensions docId p) p.is_error],
       [errorLine c m]) := by
  have he : emit = emitOk := funext fun v => hemit v
  subst he
  show finishRun (runGroups emitOk docId groups) = _
  rw [runGroups_emitOk, hitems]
  rfl

/-- Witness for C3 at a concrete error item plus PII result. -/
theorem c3_witness :
    classifyResults emitOk "doc-3"
      [[ResultItem.errorDoc ⟨"InvalidDocument", "bad text"⟩, ResultItem.pii piiA]] =
      (PyVal.str piiA.redacted_text,
       [mkLogEntry "PII" (piiDimensions "doc-3" piiA) piiA.is_error],
       [errorLine "InvalidDocument" "bad text"]) :=
  c3_error_isolation emitOk "doc-3" "InvalidDocument" "bad text" piiA
    [[ResultItem.errorDoc ⟨"InvalidDocument", "bad text"⟩, ResultItem.pii piiA]]
    (fun _ => rfl) rfl

/-- C4 counterexample: with a healthcare result present but no PII result
the invocation does NOT complete normally -- returning the never-assigned
`document_redacted_text` raises, and the catch-all turns the invocation
into the failure payload, contradicting the claim that absence of the
PII result does not turn the invocation into a failure. -/
theorem c4_counterexample :
    (classifyResults emitOk "doc-1" [[ResultItem.healthcare hcEmpty]]).1 =
      failurePayload unboundLocalMsg ∧
    (classifyResults emitOk "doc-1" [[ResultItem.healthcare hcEmpty]]).2.1 =
      [mkLogEntry "PHI" (phiDimensions "doc-1" hcEmpty) false] :=
  ⟨rfl, rfl⟩

/-- C4 (amended): absence of one of the two requested action results
yields no structured log of the missing type and no per-item error line;
absence of the HealthcareResult otherwise completes normally, but absence
of the PiiResult makes the final return raise an unbound-local error,
which the catch-all converts into the failure payload. -/
theorem c4_missing_action_result
    (docId : String) (p : PiiResult) (hc : HealthcareResult) :
    classifyResults emitOk docId [[ResultItem.pii p]] =
      (PyVal.str p.redacted_text,
       [mkLogEntry "PII" (piiDimensions docId p) p.is_error], []) ∧
    classifyResults emitOk docId [[ResultItem.healthcare hc]] =
      (failurePayload unboundLocalMsg,
       [mkLogEntry "PHI" (phiDimensions docId hc) hc.is_error],
       [catchLine unboundLocalMsg]) :=
  ⟨rfl, rfl⟩

/-- C5 counterexample: with an emitter whose serialization/sink fails, a
two-PII submission returns the failure payload, sinks no record at all
and never classifies the second item -- contradicting the claim that a
log failure is never propagated as an analysis failure. -/
theorem c5_counterexample :
    classifyResults emitBoom "doc-1" [[ResultItem.pii piiA, ResultItem.pii piiB]] =
      (failurePayload "boom", [], [catchLine "boom"]) := rfl

/-- C5 (amended): a failure to serialize or sink a structured log record
aborts document processing: the exception reaches the invocation-level
catch-all, the invocation returns the failure payload, and the remaining
result items are not classified (no further logs or error lines) and the
redacted text is not returned. -/
theorem c5_log_failure_aborts
    (msg docId : String) (p : PiiResult) (r : ResultItem) :
    classifyResults (fun _ => Except.error msg) docId [[ResultItem.pii p, r]] =
      (failurePayload msg, [], [catchLine msg]) := rfl

/-- C6: healthcare entity projection copies category, subcategory,
confidence score, offset and length verbatim (no rounding, no
recomputation); data_sources is the projection of the source's data
sources when present and the empty sequence otherwise; the assertion key
is present in the record iff the source entity has an assertion, and when
absent the key is omitted (lookup yields none), not set to null. -/
theorem c6_healthcare_entity_projection (e : HealthcareEntity) :
    jLookup (projectHealthcareEntity e) "category" = some (PyVal.str e.category) ∧
    jLookup (projectHealthcareEntity e) "subcategory" = some (pyOfOptStr e.subcategory) ∧
    jLookup (projectHealthcareEntity e) "confidence_score" =
      some (PyVal.float e.confidence_score) ∧
    jLookup (projectHealthcareEntity e) "offset" = some (PyVal.int e.offset) ∧
    jLookup (projectHealthcareEntity e) "length" = some (PyVal.int e.length) ∧
    jLookup (projectHealthcareEntity e) "data_sources" =
      some (PyVal.list ((e.data_sources.getD []).map projectDataSource)) ∧
    jLookup (projectHealthcareEntity e) "assertion" = Option.map projectAssertion e.assertion := by
  obtain ⟨tx, cat, sub, asrt, ds, off, len, cs⟩ := e
  rcases asrt with _ | a <;> rcases ds with _ | (_ | ⟨d, ds2⟩) <;>
    exact ⟨rfl, rfl, rfl, rfl, rfl, rfl, rfl⟩

/-- C7: the emitted PHI log record of a healthcare result carries one
projected relation per source relation (length preserved); each projected
relation carries the source confidence score and relation type verbatim
and flattens the role list into one single-key role-name record per role
(discarding the role's entity reference), so its entities list is
non-empty whenever the source relation has roles. -/
theorem c7_phi_relations_projection
    (docId : String) (hc : HealthcareResult) (rel : HealthcareRelation) :
    (classifyResults emitOk docId [[ResultItem.healthcare hc]]).2.1 =
      [mkLogEntry "PHI" (phiDimensions docId hc) hc.is_error] ∧
    jLookup (phiDimensions docId hc) "relations" =
      some (PyVal.list (hc.entity_relations.map projectRelation)) ∧
    (hc.entity_relations.map projectRelation).length = hc.entity_relations.length ∧
    jLookup (projectRelation rel) "confidenceScore" =
      some (PyVal.float rel.confidence_score) ∧
    jLookup (projectRelation rel) "relationType" = some (PyVal.str rel.relation_type) ∧
    jLookup (projectRelation rel) "entities" = some (PyVal.list (rel.roles.map projectRole)) ∧
    (∀ role : HealthcareRelationRole,
      projectRole role = PyVal.dict [("role", PyVal.str role.name)]) ∧
    (rel.roles ≠ [] → rel.roles.map projectRole ≠ []) := by
  refine ⟨rfl, rfl, by simp, rfl, rfl, rfl, fun role => rfl, ?_⟩
  intro hne hmap
  exact hne (List.map_eq_nil_iff.mp hmap)

/-- Witness for C7 at a one-relation healthcare result whose single role
references a full entity. -/
theorem c7_witness :
    (classifyResults emitOk "doc-7" [[ResultItem.healthcare hcA]]).2.1 =
      [mkLogEntry "PHI" (phiDimensions "doc-7" hcA) hcA.is_error] ∧
    jLookup (phiDimensions "doc-7" hcA) "relations" =
      some (PyVal.list (hcA.entity_relations.map projectRelation)) ∧
    (hcA.entity_relations.map projectRelation).length = hcA.entity_relations.length ∧
    relA.roles.map projectRole ≠ [] := by
  have h := c7_phi_relations_projection "doc-7" hcA relA
  exact ⟨h.1, h.2.1, h.2.2.1, h.2.2.2.2.2.2.2 (by decide)⟩

/-- C8: the redaction extractor returns exactly the PII result's redacted
text; PII entity projection produces one record per entity with exactly
the attributes category, subcategory, offset, length and confidence_score
copied verbatim; and on the fabricated two-entity response the extractor
returns exactly the fabricated redacted text and the projection exactly
the two matching records. -/
theorem c8_pii_projection_round_trip (docId : String) (p : PiiResult) (e : PiiEntity) :
    (classifyResults emitOk docId [[ResultItem.pii p]]).1 = PyVal.str p.redacted_text ∧
    jLookup (piiDimensions docId p) "entities" =
      some (PyVal.list (p.entities.map projectPiiEntity)) ∧
    (p.entities.map projectPiiEntity).length = p.entities.length ∧
    dictKeys (projectPiiEntity e) =
      ["category", "subcategory", "offset", "length", "confidence_score"] ∧
    jLookup (projectPiiEntity e) "category" = some (PyVal.str e.category) ∧
    jLookup (projectPiiEntity e) "subcategory" = some (pyOfOptStr e.subcategory) ∧
    jLookup (projectPiiEntity e) "offset" = some (PyVal.int e.offset) ∧
    jLookup (projectPiiEntity e) "length" = some (PyVal.int e.length) ∧
    jLookup (projectPiiEntity e) "confidence_score" =
      some (PyVal.float e.confidence_score) ∧
    (classifyResults emitOk "doc-rt" [[ResultItem.pii fabricatedPii]]).1 =
      PyVal.str "**** is at **** now" ∧
    fabricatedPii.entities.map projectPiiEntity =
      [PyVal.dict [("category", PyVal.str "Name"), ("subcategory", PyVal.none_),
                   ("offset", PyVal.int 0), ("length", PyVal.int 4),
                   ("confidence_score", PyVal.float (9/10))],
       PyVal.dict [("category", PyVal.str "Phone"), ("subcategory", PyVal.none_),
                   ("offset", PyVal.int 10), ("length", PyVal.int 8),
                   ("confidence_score", PyVal.float (19/20))]] :=
  ⟨rfl, rfl, by simp, rfl, rfl, rfl, rfl, rfl, rfl, rfl, rfl⟩

/-- C9: classification is deterministic -- classifying the same result
set with the same document id (and the same emission oracle) produces an
identical run, in particular identical structured log records; no hidden
state beyond the modeled inputs influences the emitted records. -/
theorem c9_deterministic
    (emit : PyVal → Except String Unit) (docId1 docId2 : String)
    (groups1 groups2 : List (List ResultItem))
    (hg : groups1 = groups2) (hd : docId1 = docId2) :
    classifyResults emit docId1 groups1 = classifyResults emit docId2 groups2 ∧
    (classifyResults emit docId1 groups1).2.1 = (classifyResults emit docId2 groups2).2.1 := by
  subst hg
  subst hd
  exact ⟨rfl, rfl⟩

/-- Witness for C9 at a concrete run classified twice. -/
theorem c9_witness :
    classifyResults emitOk "doc-4" [[ResultItem.pii piiA]] =
      classifyResults emitOk "doc-4" [[ResultItem.pii piiA]] ∧
    (classifyResults emitOk "doc-4" [[ResultItem.pii piiA]]).2.1 =
      (classifyResults emitOk "doc-4" [[ResultItem.pii piiA]]).2.1 :=
  c9_deterministic emitOk "doc-4" "doc-4" [[ResultItem.pii piiA]] [[ResultItem.pii piiA]]
    rfl rfl

/-- C10: every structured log record emitted by the log emitter (PII and
PHI alike) carries the constant modelVersion "2023-09-01" and its
documents payload carries as "id" exactly the document id passed into the
analysis function, so all records of one invocation share the same
correlation id. -/
theorem c10_model_version_and_correlation_id
    (emit : PyVal → Except String Unit) (docId : String)
    (groups : List (List ResultItem)) (entry : PyVal)
    (hmem : entry ∈ (classifyResults emit docId groups).2.1) :
    jLookup entry "modelVersion" = some (PyVal.str "2023-09-01") ∧
    (jLookup entry "documents").bind (fun d => jLookup d "id") = some (PyVal.str docId) := by
  rw [show (classifyResults emit docId groups).2.1 = (runGroups emit docId groups).logs from
    finishRun_logs _] at hmem
  rw [runGroups_flatten] at hmem
  exact foldl_logs_ok emit docId (flattenGroups groups) initSt
    (fun x hx => absurd hx (List.not_mem_nil x)) entry hmem

/-- Witness for C10 at the PII record of a concrete run. -/
theorem c10_witness :
    jLookup (mkLogEntry "PII" (piiDimensions "doc-5" piiA) false) "modelVersion" =
      some (PyVal.str "2023-09-01") ∧
    (jLookup (mkLogEntry "PII" (piiDimensions "doc-5" piiA) false) "documents").bind
      (fun d => jLookup d "id") = some (PyVal.str "doc-5") :=
  c10_model_version_and_correlation_id emitOk "doc-5" [[ResultItem.pii piiA]]
    (mkLogEntry "PII" (piiDimensions "doc-5" piiA) false)
    (by show mkLogEntry "PII" (piiDimensions "doc-5" piiA) false ∈
          [mkLogEntry "PII" (piiDimensions "doc-5" piiA) false]
        exact List.mem_singleton.mpr rfl)
